import Mathlib

/-!
Shallow embedding of the token-lifecycle core of the aria-data-collector
repository: `src/token-storage.js` (loadTokens, saveTokens, isTokenExpired,
clearTokens) and `src/fitbit-client.js` (refreshAccessToken,
getValidAccessToken, apiRequest).

Modelling conventions:
* The JSON token file is a `StorageState`: absent, or present with contents
  that are unreadable, corrupt (invalid JSON), or a parsed `TokenRecord`.
* JS object fields that may be `undefined` are `Option` values; JS falsiness
  of a number (`!x`) is `none` or `some 0`, of a string `none` or `some ""`.
* HTTP is an oracle: each fetch consumes a pre-chosen `HttpResponse`; bodies
  are already-parsed JSON values (`JsonBody`).
* Each operation returns `(Except JsError result, StorageState, List Ev)`:
  the JS exception or value, the storage state after the call (exceptions do
  not roll back state), and the trace of outbound fetches and save calls.
* `Date.now()` is an explicit `now : Int` (epoch milliseconds); filesystem
  write/unlink success is an explicit boolean oracle.
-/

namespace Aria

/-- The persisted Credential Record: the fields `saveTokens` writes and the
    rest of the code reads. Every field is optional, as in a JS object
    parsed from JSON. -/
structure TokenRecord where
  access_token : Option String
  refresh_token : Option String
  token_type : Option String
  expires_in : Option Int
  scope : Option String
  user_id : Option String
  saved_at : Option Int
deriving DecidableEq, Repr

/-- Contents of an existing `tokens.json` file: `readFileSync` may throw,
    `JSON.parse` may throw, or a record is parsed. -/
inductive FileContents
  | unreadable
  | corrupt
  | record (t : TokenRecord)
deriving DecidableEq, Repr

/-- The storage state: `none` when `tokens.json` does not exist. -/
abbrev StorageState := Option FileContents

/-- Parsed JSON value used for HTTP bodies: either an object read through
    the credential-record fields (any other field access yields
    `undefined`), or any other JSON value, abstractly. -/
inductive JsonBody
  | obj (t : TokenRecord)
  | other (s : String)
deriving DecidableEq, Repr

/-- Reading credential fields off a parsed JSON value, as JS property
    access does: a non-object yields `undefined` everywhere. -/
def JsonBody.asRecord : JsonBody → TokenRecord
  | .obj t => t
  | .other _ => ⟨none, none, none, none, none, none, none⟩

/-- The JS exceptions thrown by this code. -/
inductive JsError
  | fitbitAuthError (message : String)
  | fitbitApiError (message : String) (statusCode : Nat) (errors : JsonBody)
  | fsError (message : String)
deriving DecidableEq, Repr

/-- JS falsiness of an optional number: `undefined` and `0` are falsy. -/
def numFalsy : Option Int → Bool
  | none => true
  | some v => v == 0

/-- JS falsiness of an optional string: `undefined` and `""` are falsy. -/
def strFalsy : Option String → Bool
  | none => true
  | some v => v == ""

/-- The body of the `try` block of `loadTokens()` in `token-storage.js`:
    a missing file returns `null`; reading or parsing an existing file can
    throw. -/
def loadTokensBody : StorageState → Except JsError (Option TokenRecord)
  | none => .ok none
  | some .unreadable => .error (.fsError "EACCES")
  | some .corrupt => .error (.fsError "Unexpected token in JSON")
  | some (.record t) => .ok (some t)

/-- Function `loadTokens()`: the `try`/`catch` wrapper, which logs and returns
    `null` on any error. -/
def loadTokens (s : StorageState) : Except JsError (Option TokenRecord) :=
  match loadTokensBody s with
  | .ok v => .ok v
  | .error _ => .ok none

/-- The value `loadTokens()` returns (it never throws; see
    `loadTokens_eq_ok`). -/
def loadVal (s : StorageState) : Option TokenRecord :=
  match loadTokens s with
  | .ok v => v
  | .error _ => none

theorem loadTokens_eq_ok (s : StorageState) : loadTokens s = .ok (loadVal s) := by
  cases s with
  | none => rfl
  | some f => cases f <;> rfl

/-- The normalized record `saveTokens` builds: the six credential fields of
    the input plus `saved_at := Date.now()`. -/
def normalizeRecord (tokens : TokenRecord) (now : Int) : TokenRecord :=
  { access_token := tokens.access_token
    refresh_token := tokens.refresh_token
    token_type := tokens.token_type
    expires_in := tokens.expires_in
    scope := tokens.scope
    user_id := tokens.user_id
    saved_at := some now }

/-- Function `saveTokens(tokens)`: writes the normalized record; on a write failure
    the error is logged and rethrown. `writeOk` is the filesystem oracle. -/
def saveTokens (tokens : TokenRecord) (now : Int) (writeOk : Bool) (s : StorageState) :
    Except JsError Unit × StorageState :=
  if writeOk then (.ok (), some (.record (normalizeRecord tokens now)))
  else (.error (.fsError "ENOSPC"), s)

/-- Function `isTokenExpired()`: reloads the tokens and applies the 5-minute-buffer
    expiry test; `!tokens.saved_at` and `!tokens.expires_in` are JS
    falsiness tests. -/
def isTokenExpired (s : StorageState) (now : Int) : Bool :=
  match loadVal s with
  | none => true
  | some tokens =>
    if numFalsy tokens.saved_at || numFalsy tokens.expires_in then true
    else
      let expiresAt := tokens.saved_at.getD 0 + tokens.expires_in.getD 0 * 1000
      let bufferTime : Int := 5 * 60 * 1000
      decide (now ≥ expiresAt - bufferTime)

/-- Function `clearTokens()`: unlinks the file if it exists; any error is logged and
    swallowed. `unlinkOk` is the filesystem oracle; when the unlink throws
    the file is left in place. -/
def clearTokens (s : StorageState) (unlinkOk : Bool) :
    Except JsError Unit × StorageState :=
  match s with
  | none => (.ok (), none)
  | some f => if unlinkOk then (.ok (), none) else (.ok (), some f)

/-- Trace events: an outbound fetch to the token endpoint, an outbound
    fetch to a resource endpoint, or an invocation of `saveTokens`. -/
inductive Ev
  | tokenFetch
  | resourceFetch
  | saveCall
deriving DecidableEq, Repr

/-- An HTTP response, with its body already parsed
    (`await response.json()`). -/
structure HttpResponse where
  status : Nat
  body : JsonBody
deriving DecidableEq, Repr

/-- Field `response.ok` of the fetch API: status in the range 200-299. -/
def respOk (r : HttpResponse) : Bool :=
  200 ≤ r.status && r.status ≤ 299

/-- Function `refreshAccessToken()` from `fitbit-client.js`. `resp` is the token
    endpoint's response, consulted only if the fetch is issued; `now` and
    `writeOk` feed the `saveTokens` call on success. -/
def refreshAccessToken (s : StorageState) (resp : HttpResponse) (now : Int)
    (writeOk : Bool) : Except JsError TokenRecord × StorageState × List Ev :=
  match loadVal s with
  | none =>
    (.error (.fitbitAuthError "No refresh token available. Please re-authorize the application."),
      s, [])
  | some tokens =>
    if strFalsy tokens.refresh_token then
      (.error (.fitbitAuthError "No refresh token available. Please re-authorize the application."),
        s, [])
    else
      if !respOk resp then
        if resp.status == 401 || resp.status == 400 then
          (.error (.fitbitAuthError "Token refresh failed. Please re-authorize."),
            s, [.tokenFetch])
        else
          (.error (.fitbitApiError "Token refresh failed" resp.status resp.body),
            s, [.tokenFetch])
      else
        let newTokens := resp.body.asRecord
        match saveTokens newTokens now writeOk s with
        | (.ok _, s1) => (.ok newTokens, s1, [.tokenFetch, .saveCall])
        | (.error e, s1) => (.error e, s1, [.tokenFetch, .saveCall])

/-- Function `getValidAccessToken()`: loads the tokens, refreshes when
    `isTokenExpired()`, and returns the access token to be used. -/
def getValidAccessToken (s : StorageState) (refreshResp : HttpResponse)
    (now : Int) (writeOk : Bool) :
    Except JsError (Option String) × StorageState × List Ev :=
  match loadVal s with
  | none =>
    (.error (.fitbitAuthError "No tokens found. Please run npm run auth to authorize."),
      s, [])
  | some tokens =>
    if isTokenExpired s now then
      match refreshAccessToken s refreshResp now writeOk with
      | (.ok newTokens, s1, ev) => (.ok newTokens.access_token, s1, ev)
      | (.error e, s1, ev) => (.error e, s1, ev)
    else
      (.ok tokens.access_token, s, [])

/-- The HTTP and filesystem oracle for one `apiRequest` call: the responses
    each fetch would receive if issued, in program order, and the outcome of
    each `saveTokens` write. -/
structure ApiEnv where
  refreshResp1 : HttpResponse
  resourceResp : HttpResponse
  refreshResp2 : HttpResponse
  retryResp : HttpResponse
  writeOk1 : Bool
  writeOk2 : Bool
deriving DecidableEq, Repr

/-- The `catch (refreshError)` clause of `apiRequest`: a `FitbitAuthError`
    is rethrown as-is, anything else is replaced by a generic
    `FitbitAuthError`. -/
def apiCatch (e : JsError) : JsError :=
  match e with
  | .fitbitAuthError m => .fitbitAuthError m
  | _ => .fitbitAuthError "Authentication failed. Please re-authorize the application."

/-- Function `apiRequest(endpoint, options)`: resolve a token, issue the request,
    and on a 401 refresh once and retry once inside a `try` whose `catch`
    is `apiCatch`. Note the `FitbitApiError` thrown for a failed retry is
    itself inside that `try`. -/
def apiRequest (s : StorageState) (env : ApiEnv) (now : Int) :
    Except JsError JsonBody × StorageState × List Ev :=
  match getValidAccessToken s env.refreshResp1 now env.writeOk1 with
  | (.error e, s1, ev1) => (.error e, s1, ev1)
  | (.ok _accessToken, s1, ev1) =>
    let response := env.resourceResp
    if response.status == 401 then
      match refreshAccessToken s1 env.refreshResp2 now env.writeOk2 with
      | (.error refreshError, s2, ev2) =>
        (.error (apiCatch refreshError), s2, ev1 ++ [.resourceFetch] ++ ev2)
      | (.ok _newTokens, s2, ev2) =>
        let retryResponse := env.retryResp
        if !respOk retryResponse then
          (.error (apiCatch (.fitbitApiError "API request failed" retryResponse.status retryResponse.body)),
            s2, ev1 ++ [.resourceFetch] ++ ev2 ++ [.resourceFetch])
        else
          (.ok retryResponse.body,
            s2, ev1 ++ [.resourceFetch] ++ ev2 ++ [.resourceFetch])
    else
      if !respOk response then
        (.error (.fitbitApiError "API request failed" response.status response.body),
          s1, ev1 ++ [.resourceFetch])
      else
        (.ok response.body, s1, ev1 ++ [.resourceFetch])

/-! Helper lemmas shared by several claims. -/

theorem numFalsy_eq_true_iff (o : Option Int) :
    numFalsy o = true ↔ o = none ∨ o = some 0 := by
  cases o with
  | none => simp [numFalsy]
  | some v => simp [numFalsy]

/-! Claim C1. -/

/-- A record with every field present and `saved_at = 0`. -/
def c1Rec : TokenRecord :=
  ⟨some "a", some "r", some "Bearer", some 1000000, some "read", some "U", some 0⟩

/-- Storage holding `c1Rec`. -/
def c1St : StorageState := some (.record c1Rec)

/-- C1, counterexample: at `saved_at = 0` a record exists, both `saved_at`
    and `expires_in` are present, and `now = 0` is strictly before
    `saved_at + expires_in*1000 - 300000`, yet `isTokenExpired` returns
    `true`: the source tests JS falsiness (`!tokens.saved_at`), which also
    fires on the number `0`, not only on an absent field. So the claimed
    iff fails at this input. -/
theorem c1_counterexample :
    isTokenExpired c1St 0 = true ∧
    loadVal c1St = some c1Rec ∧
    c1Rec.saved_at ≠ none ∧
    c1Rec.expires_in ≠ none ∧
    ¬((0 : Int) ≥ c1Rec.saved_at.getD 0 + c1Rec.expires_in.getD 0 * 1000 - 300000) := by
  refine ⟨rfl, rfl, ?_, ?_, ?_⟩ <;> decide

/-- C1, amended: `isTokenExpired` returns true iff no record is loadable,
    or `saved_at` is absent or `0`, or `expires_in` is absent or `0`, or
    `now ≥ saved_at + expires_in*1000 - 300000`; false otherwise. -/
theorem c1_expiry_amended (s : StorageState) (now : Int) :
    isTokenExpired s now = true ↔
      loadVal s = none ∨
      ∃ t, loadVal s = some t ∧
        (t.saved_at = none ∨ t.saved_at = some 0 ∨
         t.expires_in = none ∨ t.expires_in = some 0 ∨
         now ≥ t.saved_at.getD 0 + t.expires_in.getD 0 * 1000 - 300000) := by
  cases h : loadVal s with
  | none => simp [isTokenExpired, h]
  | some t =>
    obtain ⟨a, r, ty, ei, sc, u, sa⟩ := t
    rcases sa with _ | sv <;> rcases ei with _ | ev <;>
      simp [isTokenExpired, h, numFalsy] <;>
      by_cases h1 : sv = 0 <;> try by_cases h2 : ev = 0
    all_goals simp_all

/-- C1, witness for the amended theorem: a non-falsy, non-expired record. -/
theorem c1_expiry_amended_witness :
    isTokenExpired (some (.record ⟨some "a", some "r", some "Bearer", some 3600,
      some "read", some "U", some 1000⟩)) 1000 = false := by
  have h := c1_expiry_amended (some (.record ⟨some "a", some "r", some "Bearer",
    some 3600, some "read", some "U", some 1000⟩)) 1000
  revert h
  decide

/-! Claim C6. -/

/-- C6: saving a token object and immediately loading returns a record
    whose six credential fields equal the input's and whose `saved_at` is
    the save-time clock value, which is at or after the start of the call. -/
theorem c6_save_load_roundtrip (tokens : TokenRecord) (s : StorageState)
    (now tCall : Int) (h : tCall ≤ now) :
    (saveTokens tokens now true s).1 = .ok () ∧
    loadVal (saveTokens tokens now true s).2 = some (normalizeRecord tokens now) ∧
    (normalizeRecord tokens now).access_token = tokens.access_token ∧
    (normalizeRecord tokens now).refresh_token = tokens.refresh_token ∧
    (normalizeRecord tokens now).token_type = tokens.token_type ∧
    (normalizeRecord tokens now).expires_in = tokens.expires_in ∧
    (normalizeRecord tokens now).scope = tokens.scope ∧
    (normalizeRecord tokens now).user_id = tokens.user_id ∧
    (normalizeRecord tokens now).saved_at = some now ∧
    tCall ≤ now :=
  ⟨rfl, rfl, rfl, rfl, rfl, rfl, rfl, rfl, rfl, h⟩

/-- A concrete token object for the C6 witness. -/
def c6Tok : TokenRecord :=
  ⟨some "at", some "rt", some "Bearer", some 3600, some "weight", some "U1", none⟩

/-- C6, witness at a concrete input. -/
theorem c6_save_load_roundtrip_witness :
    (saveTokens c6Tok 5 true none).1 = .ok () ∧
    loadVal (saveTokens c6Tok 5 true none).2 = some (normalizeRecord c6Tok 5) ∧
    (normalizeRecord c6Tok 5).access_token = c6Tok.access_token ∧
    (normalizeRecord c6Tok 5).refresh_token = c6Tok.refresh_token ∧
    (normalizeRecord c6Tok 5).token_type = c6Tok.token_type ∧
    (normalizeRecord c6Tok 5).expires_in = c6Tok.expires_in ∧
    (normalizeRecord c6Tok 5).scope = c6Tok.scope ∧
    (normalizeRecord c6Tok 5).user_id = c6Tok.user_id ∧
    (normalizeRecord c6Tok 5).saved_at = some 5 ∧
    (3 : Int) ≤ 5 :=
  c6_save_load_roundtrip c6Tok none 5 3 (by decide)

/-! Claim C7. -/

/-- C7: `loadTokens` never raises: it returns `.ok` of the loaded value in
    every storage state, the value being the parsed record when one is
    readable and `null` when the file is missing, corrupt or unreadable. -/
theorem c7_load_never_raises (s : StorageState) :
    loadTokens s = .ok (loadVal s) ∧
    (∀ t, s = some (.record t) → loadVal s = some t) ∧
    (s = none → loadVal s = none) ∧
    (s = some .corrupt → loadVal s = none) ∧
    (s = some .unreadable → loadVal s = none) := by
  refine ⟨loadTokens_eq_ok s, ?_, ?_, ?_, ?_⟩
  · intro t ht; subst ht; rfl
  · intro ht; subst ht; rfl
  · intro ht; subst ht; rfl
  · intro ht; subst ht; rfl

/-- C7, witness: a corrupt file loads as `.ok` with the absent value. -/
theorem c7_load_never_raises_witness :
    loadTokens (some FileContents.corrupt) = .ok (loadVal (some FileContents.corrupt)) ∧
    loadVal (some FileContents.corrupt) = none :=
  ⟨(c7_load_never_raises (some FileContents.corrupt)).1,
   (c7_load_never_raises (some FileContents.corrupt)).2.2.2.1 rfl⟩

/-! Claim C10. -/

/-- C10: `clearTokens` never raises: on an absent record it is a no-op,
    and when the unlink fails the error is swallowed and the record stays
    in place. -/
theorem c10_clear_never_raises (s : StorageState) (unlinkOk : Bool) :
    (clearTokens s unlinkOk).1 = .ok () ∧
    (s = none → clearTokens s unlinkOk = (.ok (), none)) ∧
    (unlinkOk = true → (clearTokens s unlinkOk).2 = none) ∧
    (unlinkOk = false → (clearTokens s unlinkOk).2 = s) := by
  cases s <;> cases unlinkOk <;> simp [clearTokens]

/-- C10, witness: clearing an absent record succeeds and leaves it absent. -/
theorem c10_clear_never_raises_witness :
    (clearTokens none true).1 = .ok () ∧ clearTokens none true = (.ok (), none) :=
  ⟨(c10_clear_never_raises none true).1, (c10_clear_never_raises none true).2.1 rfl⟩

/-! Helper lemmas about `refreshAccessToken` and `getValidAccessToken`. -/

theorem refresh_trace_cases (s : StorageState) (resp : HttpResponse) (now : Int)
    (w : Bool) :
    (refreshAccessToken s resp now w).2.2 = [] ∨
    (refreshAccessToken s resp now w).2.2 = [.tokenFetch] ∨
    (refreshAccessToken s resp now w).2.2 = [.tokenFetch, .saveCall] := by
  unfold refreshAccessToken
  rcases loadVal s with _ | t
  · simp
  · dsimp only
    by_cases hf : strFalsy t.refresh_token <;> simp only [hf, if_true, if_false]
    · simp
    · by_cases ho : respOk resp <;> simp only [ho, Bool.not_true, Bool.not_false, if_true, if_false]
      · rcases hw : saveTokens resp.body.asRecord now w s with ⟨r1, s1⟩
        cases r1 <;> simp [hw]
      · by_cases hst : (resp.status == 401 || resp.status == 400) <;> simp [hst]

theorem refresh_ok_trace (s : StorageState) (resp : HttpResponse) (now : Int)
    (w : Bool) (nt : TokenRecord) (s1 : StorageState) (ev : List Ev)
    (h : refreshAccessToken s resp now w = (.ok nt, s1, ev)) :
    ev = [Ev.tokenFetch, Ev.saveCall] ∧ respOk resp = true := by
  unfold refreshAccessToken at h
  rcases hl : loadVal s with _ | t <;> rw [hl] at h
  · simp at h
  · dsimp only at h
    by_cases hf : strFalsy t.refresh_token <;> simp only [hf, if_true, if_false] at h
    · simp at h
    · by_cases ho : respOk resp <;>
        simp only [ho, Bool.not_true, Bool.not_false, if_true, if_false] at h
      · rcases hw : saveTokens resp.body.asRecord now w s with ⟨r1, s2⟩
        rw [hw] at h
        cases r1 <;> simp_all
      · by_cases hst : (resp.status == 401 || resp.status == 400) <;> simp [hst] at h

theorem refresh_not_ok_state (s : StorageState) (resp : HttpResponse) (now : Int)
    (w : Bool) (hok : respOk resp = false) :
    (refreshAccessToken s resp now w).2.1 = s ∧
    Ev.saveCall ∉ (refreshAccessToken s resp now w).2.2 := by
  unfold refreshAccessToken
  rcases loadVal s with _ | t
  · simp
  · dsimp only
    by_cases hf : strFalsy t.refresh_token <;> simp only [hf, if_true, if_false]
    · simp
    · simp only [hok, Bool.not_false, if_true]
      by_cases hst : (resp.status == 401 || resp.status == 400) <;> simp [hst]

theorem refresh_save_only_on_ok (s : StorageState) (resp : HttpResponse) (now : Int)
    (w : Bool) (h : Ev.saveCall ∈ (refreshAccessToken s resp now w).2.2) :
    respOk resp = true := by
  by_cases hok : respOk resp
  · exact hok
  · exact absurd h (refresh_not_ok_state s resp now w (by simpa using hok)).2

theorem getValid_trace_cases (s : StorageState) (r : HttpResponse) (now : Int)
    (w : Bool) :
    (getValidAccessToken s r now w).2.2 = [] ∨
    (getValidAccessToken s r now w).2.2 = (refreshAccessToken s r now w).2.2 := by
  unfold getValidAccessToken
  rcases loadVal s with _ | t
  · simp
  · dsimp only
    by_cases he : isTokenExpired s now <;> simp only [he, if_true, if_false]
    · rcases hr : refreshAccessToken s r now w with ⟨r1, s1, ev⟩
      cases r1 <;> simp [hr]
    · simp

/-! Claim C4. -/

/-- C4: `refreshAccessToken` fails with an auth error and no token-endpoint
    fetch when no (truthy) refresh token is on record; on a non-2xx
    endpoint response it fails with an auth error when the status is 400 or
    401 and with a generic API failure carrying the status and parsed body
    otherwise; and it never retries (at most one token fetch, no resource
    fetch). -/
theorem c4_refresh_errors (s : StorageState) (resp : HttpResponse) (now : Int)
    (writeOk : Bool) :
    ((loadVal s = none ∨ ∃ t, loadVal s = some t ∧ strFalsy t.refresh_token = true) →
       refreshAccessToken s resp now writeOk =
         (.error (.fitbitAuthError "No refresh token available. Please re-authorize the application."),
          s, [])) ∧
    (∀ t, loadVal s = some t → strFalsy t.refresh_token = false → respOk resp = false →
       ((resp.status = 400 ∨ resp.status = 401) →
          refreshAccessToken s resp now writeOk =
            (.error (.fitbitAuthError "Token refresh failed. Please re-authorize."),
             s, [Ev.tokenFetch])) ∧
       (resp.status ≠ 400 → resp.status ≠ 401 →
          refreshAccessToken s resp now writeOk =
            (.error (.fitbitApiError "Token refresh failed" resp.status resp.body),
             s, [Ev.tokenFetch]))) ∧
    ((refreshAccessToken s resp now writeOk).2.2.count Ev.tokenFetch ≤ 1 ∧
     (refreshAccessToken s resp now writeOk).2.2.count Ev.resourceFetch = 0) := by
  refine ⟨?_, ?_, ?_⟩
  · rintro (h | ⟨t, ht, hf⟩)
    · simp [refreshAccessToken, h]
    · simp [refreshAccessToken, ht, hf]
  · intro t ht hf hok
    constructor
    · intro hst
      have hb : (resp.status == 401 || resp.status == 400) = true := by
        rcases hst with h | h <;> simp [h]
      simp [refreshAccessToken, ht, hf, hok, hb]
    · intro h1 h2
      have hb : (resp.status == 401 || resp.status == 400) = false := by
        simp [h1, h2]
      simp [refreshAccessToken, ht, hf, hok, hb]
  · rcases refresh_trace_cases s resp now writeOk with h | h | h <;> rw [h] <;> simp

/-- A stored record with a truthy refresh token, for the C4 witness. -/
def c4St : StorageState :=
  some (.record ⟨some "at", some "rt", some "Bearer", some 3600, some "w", some "u", some 1⟩)

/-- C4, witness: a 500 from the token endpoint becomes an API failure
    carrying status 500 and the parsed body, after exactly one fetch. -/
theorem c4_refresh_errors_witness :
    refreshAccessToken c4St ⟨500, .other "boom"⟩ 0 true =
      (.error (.fitbitApiError "Token refresh failed" 500 (.other "boom")),
       c4St, [Ev.tokenFetch]) :=
  ((c4_refresh_errors c4St ⟨500, .other "boom"⟩ 0 true).2.1
    ⟨some "at", some "rt", some "Bearer", some 3600, some "w", some "u", some 1⟩
    rfl rfl (by decide)).2 (by decide) (by decide)

/-! Claim C9. -/

/-- C9: when the refresh fails because no refresh token is on record or
    because the token endpoint answered non-2xx, the stored record is left
    unchanged and `saveTokens` is not invoked; `saveTokens` is invoked only
    after a 2xx token-endpoint response. -/
theorem c9_refresh_failure_preserves_store (s : StorageState) (resp : HttpResponse)
    (now : Int) (writeOk : Bool) :
    ((loadVal s = none ∨ ∃ t, loadVal s = some t ∧ strFalsy t.refresh_token = true) →
       (refreshAccessToken s resp now writeOk).2.1 = s ∧
       Ev.saveCall ∉ (refreshAccessToken s resp now writeOk).2.2) ∧
    (respOk resp = false →
       (refreshAccessToken s resp now writeOk).2.1 = s ∧
       Ev.saveCall ∉ (refreshAccessToken s resp now writeOk).2.2) ∧
    (Ev.saveCall ∈ (refreshAccessToken s resp now writeOk).2.2 → respOk resp = true) := by
  refine ⟨?_, ?_, refresh_save_only_on_ok s resp now writeOk⟩
  · rintro (h | ⟨t, ht, hf⟩)
    · simp [refreshAccessToken, h]
    · simp [refreshAccessToken, ht, hf]
  · intro hok
    exact refresh_not_ok_state s resp now writeOk hok

/-- A stored record with a truthy refresh token, for the C9 witness. -/
def c9St : StorageState :=
  some (.record ⟨some "at", some "rt", some "Bearer", some 3600, some "w", some "u", some 2⟩)

/-- C9, witness: a 401 refresh leaves the stored record untouched and
    invokes no save. -/
theorem c9_refresh_failure_preserves_store_witness :
    (refreshAccessToken c9St ⟨401, .other "expired"⟩ 0 true).2.1 = c9St ∧
    Ev.saveCall ∉ (refreshAccessToken c9St ⟨401, .other "expired"⟩ 0 true).2.2 :=
  (c9_refresh_failure_preserves_store c9St ⟨401, .other "expired"⟩ 0 true).2.1 (by decide)

/-! Helper lemma about the trace of `apiRequest` after a resolved token. -/

theorem api_trace_after_ok (s : StorageState) (env : ApiEnv) (now : Int)
    (a : Option String) (s1 : StorageState) (ev1 : List Ev)
    (h : getValidAccessToken s env.refreshResp1 now env.writeOk1 = (.ok a, s1, ev1)) :
    ∃ rest, (apiRequest s env now).2.2 = ev1 ++ Ev.resourceFetch :: rest := by
  unfold apiRequest
  rw [h]
  dsimp only
  by_cases h401 : (env.resourceResp.status == 401) <;>
    simp only [h401, if_true, if_false]
  · rcases hr : refreshAccessToken s1 env.refreshResp2 now env.writeOk2 with ⟨r2, s2, ev2⟩
    cases r2 <;> dsimp only
    · exact ⟨ev2, by simp⟩
    · by_cases hro : respOk env.retryResp <;>
        simp only [hro, Bool.not_true, Bool.not_false, if_true, if_false] <;>
        exact ⟨ev2 ++ [Ev.resourceFetch], by simp⟩
  · by_cases hro : respOk env.resourceResp <;>
      simp only [hro, Bool.not_true, Bool.not_false, if_true, if_false] <;>
      exact ⟨[], rfl⟩

/-! Claim C5. -/

/-- C5: resolving the token inside `apiRequest`: an absent record fails
    with a `FitbitAuthError` before any HTTP request; a present, expired
    record triggers exactly one refresh before the resource fetch, whose
    access token is used on success and whose error propagates unchanged on
    failure; a present, unexpired record is used directly with no fetch. -/
theorem c5_resolve_token (s : StorageState) (env : ApiEnv) (now : Int) :
    (loadVal s = none →
       apiRequest s env now =
         (.error (.fitbitAuthError "No tokens found. Please run npm run auth to authorize."),
          s, [])) ∧
    (∀ t, loadVal s = some t → isTokenExpired s now = true →
       (∀ nt s1 ev,
          refreshAccessToken s env.refreshResp1 now env.writeOk1 = (.ok nt, s1, ev) →
          getValidAccessToken s env.refreshResp1 now env.writeOk1 =
            (.ok nt.access_token, s1, ev) ∧
          ev.count Ev.tokenFetch = 1 ∧
          ∃ rest, (apiRequest s env now).2.2 = ev ++ Ev.resourceFetch :: rest) ∧
       (∀ e s1 ev,
          refreshAccessToken s env.refreshResp1 now env.writeOk1 = (.error e, s1, ev) →
          getValidAccessToken s env.refreshResp1 now env.writeOk1 = (.error e, s1, ev) ∧
          apiRequest s env now = (.error e, s1, ev))) ∧
    (∀ t, loadVal s = some t → isTokenExpired s now = false →
       getValidAccessToken s env.refreshResp1 now env.writeOk1 = (.ok t.access_token, s, [])) := by
  refine ⟨?_, ?_, ?_⟩
  · intro h
    simp [apiRequest, getValidAccessToken, h]
  · intro t ht hexp
    constructor
    · intro nt s1 ev hr
      have hg : getValidAccessToken s env.refreshResp1 now env.writeOk1 =
          (.ok nt.access_token, s1, ev) := by
        simp [getValidAccessToken, ht, hexp, hr]
      refine ⟨hg, ?_, api_trace_after_ok s env now nt.access_token s1 ev hg⟩
      rw [(refresh_ok_trace s env.refreshResp1 now env.writeOk1 nt s1 ev hr).1]
      rfl
    · intro e s1 ev hr
      have hg : getValidAccessToken s env.refreshResp1 now env.writeOk1 =
          (.error e, s1, ev) := by
        simp [getValidAccessToken, ht, hexp, hr]
      exact ⟨hg, by simp [apiRequest, hg]⟩
  · intro t ht hexp
    simp [getValidAccessToken, ht, hexp]

/-- A stored fresh record for the C5 witness. -/
def c5St : StorageState :=
  some (.record ⟨some "tok", some "rt", some "Bearer", some 3600, some "w", some "u", some 1000⟩)

/-- The oracle for the C5 witness. -/
def c5Env : ApiEnv :=
  ⟨⟨200, .other "x"⟩, ⟨200, .other "data"⟩, ⟨200, .other "x"⟩, ⟨200, .other "x"⟩, true, true⟩

/-- C5, witness: a present, unexpired record is used directly. -/
theorem c5_resolve_token_witness :
    getValidAccessToken c5St c5Env.refreshResp1 1000 c5Env.writeOk1 =
      (.ok (some "tok"), c5St, []) :=
  (c5_resolve_token c5St c5Env 1000).2.2
    ⟨some "tok", some "rt", some "Bearer", some 3600, some "w", some "u", some 1000⟩
    rfl (by decide)

/-! Claim C2. -/

/-- The new token set the token endpoint issues in the C2 scenario. -/
def c2New : TokenRecord :=
  ⟨some "tok2", some "rt2", some "Bearer", some 3600, some "weight", some "U1", none⟩

/-- A stored fresh record: not expired at `now = 1000`. -/
def c2St : StorageState :=
  some (.record ⟨some "tok", some "rt", some "Bearer", some 3600, some "weight", some "U1", some 1000⟩)

/-- The C2 failing scenario: initial resource response 401, reactive
    refresh succeeds (200), retry responds 500. -/
def c2Env : ApiEnv :=
  ⟨⟨200, .obj c2New⟩, ⟨401, .other "expired token"⟩, ⟨200, .obj c2New⟩,
   ⟨500, .other "server error"⟩, true, true⟩

/-- C2: at the failing input the call does perform exactly one refresh and
    one retry (trace `[resourceFetch, tokenFetch, saveCall, resourceFetch]`),
    but the non-2xx retry does not surface as a `FitbitApiError` carrying
    status 500: the error thrown for the failed retry is raised inside the
    `try` block, so `catch (refreshError)` intercepts it and replaces it
    with a generic `FitbitAuthError`, contradicting the claim and the
    spec's step 4.2(3). -/
theorem c2_retry_failure_code_behavior :
    apiRequest c2St c2Env 1000 =
      (.error (.fitbitAuthError "Authentication failed. Please re-authorize the application."),
       some (.record (normalizeRecord c2New 1000)),
       [Ev.resourceFetch, Ev.tokenFetch, Ev.saveCall, Ev.resourceFetch]) := rfl

/-! Claim C3. -/

/-- The new token set issued by the token endpoint in the C3 scenario. -/
def c3New : TokenRecord :=
  ⟨some "tok2", some "rt2", some "Bearer", some 3600, some "w", some "u", none⟩

/-- A stored record that is expired at `now = 10000000`. -/
def c3St : StorageState :=
  some (.record ⟨some "tok", some "rt", some "Bearer", some 3600, some "w", some "u", some 1000⟩)

/-- The C3 scenario: pre-emptive refresh succeeds, resource fetch answers
    401, reactive refresh succeeds, retry answers 200. -/
def c3Env : ApiEnv :=
  ⟨⟨200, .obj c3New⟩, ⟨401, .other "e"⟩, ⟨200, .obj c3New⟩, ⟨200, .other "data"⟩, true, true⟩

/-- C3, counterexample: with an expired stored record and a 401 initial
    resource response, a single `apiRequest` call issues two token-endpoint
    fetches (one pre-emptive refresh in the resolve step and one reactive
    refresh after the 401), so it performs more than one refresh attempt. -/
theorem c3_counterexample :
    (apiRequest c3St c3Env 10000000).2.2.count Ev.tokenFetch = 2 ∧
    ¬((apiRequest c3St c3Env 10000000).2.2.count Ev.tokenFetch ≤ 1) := by
  decide

/-- C3, amended: per `apiRequest` call there are at most two refresh
    attempts that reach the token endpoint (at most one pre-emptive, at
    most one reactive) and at most one retry (at most two resource
    fetches); the call never loops. -/
theorem c3_no_loop (s : StorageState) (env : ApiEnv) (now : Int) :
    (apiRequest s env now).2.2.count Ev.tokenFetch ≤ 2 ∧
    (apiRequest s env now).2.2.count Ev.resourceFetch ≤ 2 := by
  rcases hgv : getValidAccessToken s env.refreshResp1 now env.writeOk1 with ⟨r1, s1, ev1⟩
  have hev1 : ev1.count Ev.tokenFetch ≤ 1 ∧ ev1.count Ev.resourceFetch = 0 := by
    have hg := getValid_trace_cases s env.refreshResp1 now env.writeOk1
    simp only [hgv] at hg
    rcases hg with h | h
    · subst h; simp
    · rw [h]
      rcases refresh_trace_cases s env.refreshResp1 now env.writeOk1 with h2 | h2 | h2 <;>
        rw [h2] <;> simp
  unfold apiRequest
  rw [hgv]
  cases r1 with
  | error e =>
    dsimp only
    exact ⟨le_trans hev1.1 (by norm_num), le_trans (le_of_eq hev1.2) (by norm_num)⟩
  | ok a =>
    dsimp only
    by_cases h401 : (env.resourceResp.status == 401) <;>
      simp only [h401, if_true, if_false]
    · rcases hr : refreshAccessToken s1 env.refreshResp2 now env.writeOk2 with ⟨r2, s2, ev2⟩
      have hev2 : ev2.count Ev.tokenFetch ≤ 1 ∧ ev2.count Ev.resourceFetch = 0 := by
        have hg := refresh_trace_cases s1 env.refreshResp2 now env.writeOk2
        simp only [hr] at hg
        rcases hg with h | h | h <;> rw [h] <;> simp
      cases r2 <;> dsimp only
      · constructor <;> simp [List.count_append, List.count_cons] <;> omega
      · by_cases hro : respOk env.retryResp <;>
          simp only [hro, Bool.not_true, Bool.not_false, if_true, if_false] <;>
          constructor <;> simp [List.count_append, List.count_cons] <;> omega
    · by_cases hro : respOk env.resourceResp <;>
        simp only [hro, Bool.not_true, Bool.not_false, if_true, if_false] <;>
        constructor <;> simp [List.count_append, List.count_cons] <;> omega

/-! Claim C8. -/

/-- The new token set issued by the token endpoint in the C8 scenario. -/
def c8New : TokenRecord :=
  ⟨some "tok2", some "rt2", some "Bearer", some 3600, some "w", some "u", none⟩

/-- A stored record that is expired at `now = 10000000`. -/
def c8St : StorageState :=
  some (.record ⟨some "tok", some "rt", some "Bearer", some 3600, some "w", some "u", some 1000⟩)

/-- The C8 scenario: an expired stored record, pre-emptive refresh
    succeeds, resource fetch answers 429. -/
def c8Env : ApiEnv :=
  ⟨⟨200, .obj c8New⟩, ⟨429, .other "rate limit"⟩, ⟨200, .obj c8New⟩,
   ⟨200, .other "x"⟩, true, true⟩

/-- C8, counterexample: a call whose initial resource response is 429 does
    raise a `FitbitApiError` carrying status 429 and the parsed body and
    performs no retry, but it did perform one refresh attempt (the
    pre-emptive one, since the stored record was expired), so "performs no
    refresh attempt" fails for this call. -/
theorem c8_counterexample :
    (apiRequest c8St c8Env 10000000).1 =
      .error (.fitbitApiError "API request failed" 429 (.other "rate limit")) ∧
    (apiRequest c8St c8Env 10000000).2.2.count Ev.tokenFetch = 1 :=
  ⟨rfl, rfl⟩

/-- C8, amended: a non-401 non-2xx initial resource response surfaces as a
    `FitbitApiError` carrying the original status code and parsed error
    body, and triggers no refresh and no retry: the call ends right after
    the initial resource fetch (only the resolve-token step may have
    refreshed beforehand). -/
theorem c8_non401_failure (s : StorageState) (env : ApiEnv) (now : Int)
    (a : Option String) (s1 : StorageState) (ev1 : List Ev)
    (hok : getValidAccessToken s env.refreshResp1 now env.writeOk1 = (.ok a, s1, ev1))
    (h401 : env.resourceResp.status ≠ 401)
    (hnok : respOk env.resourceResp = false) :
    apiRequest s env now =
      (.error (.fitbitApiError "API request failed" env.resourceResp.status env.resourceResp.body),
       s1, ev1 ++ [Ev.resourceFetch]) := by
  unfold apiRequest
  rw [hok]
  have hb : (env.resourceResp.status == 401) = false := by simp [h401]
  simp [hb, hnok]

/-- A stored fresh record for the C8 witness. -/
def c8wSt : StorageState :=
  some (.record ⟨some "tok", some "rt", some "Bearer", some 3600, some "w", some "u", some 1000⟩)

/-- The C8 witness scenario: fresh record, resource fetch answers 429. -/
def c8wEnv : ApiEnv :=
  ⟨⟨200, .obj c8New⟩, ⟨429, .other "limit"⟩, ⟨200, .obj c8New⟩,
   ⟨200, .other "x"⟩, true, true⟩

/-- C8, witness: with a fresh record, a 429 surfaces as a `FitbitApiError`
    carrying 429 and the body, with a single resource fetch in the trace. -/
theorem c8_non401_failure_witness :
    apiRequest c8wSt c8wEnv 1000 =
      (.error (.fitbitApiError "API request failed" 429 (.other "limit")),
       c8wSt, [Ev.resourceFetch]) :=
  c8_non401_failure c8wSt c8wEnv 1000 (some "tok") c8wSt []
    rfl (by decide) rfl

end Aria
